import Mathlib

/-
Verification development for the PostPrism autonomous step-execution
orchestrator (backend/agent_s2_controller and backend/app_fixed.py).

The Python sources are shallowly embedded: pure string heuristics become
Lean functions on `String`, external calls (ORGO screenshots, decision-agent
predictions, remote exec, PIL image decoding) become explicit oracle/
environment data, and the control loops become total recursive functions
over those environments.  Floats used for the adaptive rate-limit delays are
modelled as rationals; the arithmetic involved (double / cap, 0.9-decay /
floor) is exact under min/max so nothing claim-relevant is lost.
-/

set_option maxRecDepth 40000

namespace PostPrism

/-! ## String utilities (Python `str.lower`, `in`, slicing) -/

/-- Python `needle in hay` (substring test), on char lists: needle is a
prefix of hay. -/
def subAt : List Char → List Char → Bool
  | [], _ => true
  | _ :: _, [] => false
  | c :: cs, h :: hs => c == h && subAt cs hs

/-- Substring occurrence anywhere in `hay`. -/
def subIn (needle : List Char) : List Char → Bool
  | [] => subAt needle []
  | h :: hs => subAt needle (h :: hs) || subIn needle hs

/-- Python `needle in hay` on strings. -/
def strIn (needle hay : String) : Bool := subIn needle.data hay.data

/-- Python `s.lower()` (the sources only feed ASCII action text). -/
def lowerS (s : String) : String := ⟨s.data.map Char.toLower⟩

/-- Python `l[-n:]`. -/
def lastN (n : Nat) (l : List α) : List α := l.drop (l.length - n)

/-- Python `s[-n:]` on strings. -/
def lastChars (n : Nat) (s : String) : String := ⟨lastN n s.data⟩

/-- All elements of the list are equal (Python `len(set(l)) <= 1`). -/
def allEqualStr : List String → Bool
  | [] => true
  | a :: t => t.all (fun b => b == a)

/-! ## A small regex engine

The optimized manager feeds some of its patterns to Python `re.search`.
Every such pattern in the source uses only: literal characters, `.`
(any char except newline), postfix `*` / `+` on a single-character atom,
transparent grouping `( )` (no quantified groups, no alternation), and
character classes `[ ]` (no ranges).  The engine below implements exactly
Python semantics for that fragment. -/

inductive RBase where
  | lit (c : Char)
  | dot
  | cls (cs : List Char)
  deriving DecidableEq

inductive RQuant where
  | one
  | star
  | plus
  deriving DecidableEq

structure RAtom where
  base : RBase
  quant : RQuant
  deriving DecidableEq

/-- Parse the regex fragment into a flat atom sequence.  The second argument
is `some cs` while scanning a character-class body (chars collected so far),
`none` otherwise; the accumulator is reversed.  `(` and `)` are
grouping-only in the source's patterns and are semantically transparent;
`*` / `+` quantify the previous atom. -/
def parseRm : List Char → Option (List Char) → List RAtom → List RAtom
  | [], none, acc => acc.reverse
  | [], some cs, acc => (⟨.cls cs, .one⟩ :: acc).reverse
  | c :: rest, some cs, acc =>
    if c == ']' then parseRm rest none (⟨.cls cs, .one⟩ :: acc)
    else parseRm rest (some (cs ++ [c])) acc
  | c :: rest, none, acc =>
    if c == '(' then parseRm rest none acc
    else if c == ')' then parseRm rest none acc
    else if c == '[' then parseRm rest (some []) acc
    else if c == '.' then parseRm rest none (⟨.dot, .one⟩ :: acc)
    else if c == '*' then
      match acc with
      | a :: as => parseRm rest none ({ a with quant := .star } :: as)
      | [] => parseRm rest none acc
    else if c == '+' then
      match acc with
      | a :: as => parseRm rest none ({ a with quant := .plus } :: as)
      | [] => parseRm rest none acc
    else parseRm rest none (⟨.lit c, .one⟩ :: acc)

/-- Parse a full pattern. -/
def parseR (p : List Char) : List RAtom := parseRm p none []

def bMatch : RBase → Char → Bool
  | .lit c, x => c == x
  | .dot, x => !(x == '\n')
  | .cls cs, x => cs.contains x

/-
The matcher is run as an NFA over atom-list suffixes (a state is the list
of atoms still to be matched); this is the standard equivalent of
backtracking for a fragment with single-character atoms, and keeps every
definition structurally recursive.
-/

/-- ε-closure of one state: itself, plus everything reachable by skipping
leading star atoms. -/
def epsClosure : List RAtom → List (List RAtom)
  | [] => [[]]
  | ⟨b, .star⟩ :: as => (⟨b, .star⟩ :: as) :: epsClosure as
  | as => [as]

/-- Successor states of one state on character `c` (before ε-closure). -/
def stepState (c : Char) : List RAtom → List (List RAtom)
  | [] => []
  | ⟨b, .one⟩ :: as => if bMatch b c then [as] else []
  | ⟨b, .plus⟩ :: as => if bMatch b c then [⟨b, .star⟩ :: as] else []
  | ⟨b, .star⟩ :: as => if bMatch b c then [⟨b, .star⟩ :: as] else []

/-- Add a state to a duplicate-free state set. -/
def addState (s : List RAtom) (acc : List (List RAtom)) : List (List RAtom) :=
  if acc.contains s then acc else acc ++ [s]

/-- Add the ε-closure of a state to a state set. -/
def closureInto (s : List RAtom) (acc : List (List RAtom)) : List (List RAtom) :=
  (epsClosure s).foldl (fun a st => addState st a) acc

/-- One NFA step over a whole state set. -/
def stepSet (c : Char) (states : List (List RAtom)) : List (List RAtom) :=
  states.foldl (fun acc st => (stepState c st).foldl (fun a s2 => closureInto s2 a) acc) []

/-- A state set accepts once the empty suffix is reached. -/
def acceptsSet (states : List (List RAtom)) : Bool := states.contains []

/-- Does some prefix of `s` complete the match (search semantics: trailing
characters may remain)? -/
def runNfa (states : List (List RAtom)) : List Char → Bool
  | [] => acceptsSet states
  | c :: cs => acceptsSet states || runNfa (stepSet c states) cs

/-- Match the atom sequence against a prefix of `s`. -/
def matchHere (as : List RAtom) (s : List Char) : Bool :=
  runNfa (closureInto as []) s

/-- Try a match starting at every position (Python `re.search`). -/
def reSearchL (as : List RAtom) : List Char → Bool
  | [] => matchHere as []
  | c :: cs => matchHere as (c :: cs) || reSearchL as cs

/-- Python `re.search(pattern, s) is not None` for the fragment used by the
source's heuristics. -/
def pySearch (pattern s : String) : Bool :=
  reSearchL (parseR pattern.data) s.data

/-- Python `any(char in pattern for char in ['.*', '\\', '(', ')', '[', ']'])`
(optimized_agent_manager.py line 666). -/
def hasRegexChars (p : String) : Bool :=
  strIn ".*" p || strIn "\\" p || strIn "(" p || strIn ")" p ||
  strIn "[" p || strIn "]" p

/-! ## optimized_agent_manager.py: completion / rewrite classifiers -/

/-- `explicit_completion` (lines 564-569). -/
def explicit_completion : List String :=
  ["done", "complete", "finished", "task completed"]

/-- `button_click_patterns` (lines 572-577). -/
def button_click_patterns : List String :=
  ["click.*post.*button", "click.*publish.*button",
   "click.*share.*button", "click.*tweet.*button"]

/-- `_is_task_completed_optimized` (lines 547-595); the `info` argument is
never used by the source after the "REMOVED" refactor, so it is omitted. -/
def is_task_completed_optimized (action : String) : Bool :=
  if action == "" then false
  else
    let al := lowerS action
    explicit_completion.any (fun s => strIn s al) ||
    button_click_patterns.any (fun p => pySearch p al)

/-- `editing_patterns` (lines 602-659), transcribed in source order. -/
def editing_patterns : List String :=
  ["pyautogui.hotkey('ctrl', 'a')",
   "pyautogui.hotkey(\"ctrl\", \"a\")",
   "hotkey('ctrl', 'a')",
   "hotkey(\"ctrl\", \"a\")",
   "ctrl+a",
   "hotkey(['ctrl', 'a'])",
   "agent.hotkey(['ctrl', 'a'])",
   "pyautogui.key('ctrl+a')",
   "pyautogui.keyDown('ctrl')",
   "pyautogui.press('ctrl+a')",
   "pyautogui.key('delete')",
   "pyautogui.key('backspace')",
   "pyautogui.press('delete')",
   "pyautogui.press('backspace')",
   "select all text",
   "selected all text",
   "highlighted text",
   "cursor focus",
   "set the cursor focus",
   "replace with the exact",
   "overwrite the selected",
   "replace the selected",
   "select all",
   "select.*all",
   "highlighted.*text",
   "selected.*text",
   "duplicated text",
   "composer still shows duplicated",
   "text is still highlighted",
   "clear",
   "delete all",
   "overwrite",
   "replace",
   "modify",
   "edit",
   "change",
   "correct",
   "fix",
   "type.*overwrite=true",
   "overwrite=true",
   "agent.type.*overwrite",
   "type.*the highlighted",
   "type.*the selected"]

/-- `editing_context_patterns` (lines 689-695); note the source checks these
with plain `in` (substring), even though some contain `.*`. -/
def editing_context_patterns : List String :=
  ["highlighted.*text", "selected.*text", "the currently highlighted",
   "the selected text", "replace.*selected"]

/-- One pattern check from `_is_rewrite_action`: regex search when the
pattern contains a regex metacharacter, plain substring otherwise
(lines 663-677; the `re.error` fallback never fires, every pattern in the
list compiles). -/
def editPatternMatches (p al : String) : Bool :=
  if hasRegexChars p then pySearch p al else strIn p al

/-- `_is_rewrite_action` (lines 597-702). -/
def is_rewrite_action (action : String) : Bool :=
  let al := lowerS action
  editing_patterns.any (fun p => editPatternMatches p al) ||
  (strIn "overwrite=true" al || strIn "overwrite=True" action) ||
  editing_context_patterns.any (fun p => strIn p al)

/-! ## optimized_agent_manager.py: `_run_optimized_agent_loop`

External calls are data: each loop iteration reads the outcome of the
screenshot call, the decision-agent prediction and the remote execution
from a per-step environment.  A Python call that raises carries the string
of the exception. -/

/-- Outcome of one external call: the returned value, or the text of the
raised exception. -/
inductive CallRes (α : Type) where
  | ok (a : α)
  | exn (msg : String)
  deriving DecidableEq

/-- `"rate limit" in str(e).lower() or "429" in str(e)` (line 418). -/
def isRateLimitMsg (m : String) : Bool :=
  strIn "rate limit" (lowerS m) || strIn "429" m

/-- The loop-body state carried across steps of the optimized loop:
`recent_actions` (last 3 signatures), `stuck_counter`,
`consecutive_rewrites`. -/
structure OptState where
  recent : List String
  stuck : Nat
  rewrites : Nat
  deriving DecidableEq

/-- `recent_actions.append(sig)` followed by `pop(0)` when over 3 entries
(lines 442-444). -/
def pushRecent (recent : List String) (sig : String) : List String :=
  lastN 3 (recent ++ [sig])

/-- What the loop body decides to do with a predicted action. -/
inductive OptOutcome where
  | terminate (success : Bool) (reason : String)
  | skip
  | execute (action : String)
  deriving DecidableEq

/-- The action-handling section of `_run_optimized_agent_loop`
(lines 438-538): loop detection, floor-gated completion detection, the
done/fail/next/wait special commands, and the anti-perfectionism check, in
source order. -/
def optimizedHandleAction (s : OptState) (step : Nat) (action : String) :
    OptOutcome × OptState :=
  -- the buffer after appending the 100-char signature and trimming to 3
  if decide (2 ≤ (pushRecent s.recent (action.take 100)).length) &&
      allEqualStr (pushRecent s.recent (action.take 100)) then
    -- two identical retained actions: stuck_counter += 1, and the very
    -- first detection (stuck_counter >= 1) terminates immediately
    (.terminate true "loop_detection_termination",
     ⟨pushRecent s.recent (action.take 100), s.stuck + 1, s.rewrites⟩)
  else if decide (3 ≤ step) && is_task_completed_optimized action then
    (.terminate true "task_completed",
     ⟨pushRecent s.recent (action.take 100), 0, s.rewrites⟩)
  -- (step < 3 with a completion signal only logs a warning)
  else if strIn "done" (lowerS action) || strIn "fail" (lowerS action) then
    (.terminate (strIn "done" (lowerS action))
      (if strIn "done" (lowerS action) then "agent_declared_done"
       else "agent_declared_failed"),
     ⟨pushRecent s.recent (action.take 100), 0, s.rewrites⟩)
  else if strIn "next" (lowerS action) then
    (.skip, ⟨pushRecent s.recent (action.take 100), 0, s.rewrites⟩)
  else if strIn "wait" (lowerS action) then
    (.skip, ⟨pushRecent s.recent (action.take 100), 0, s.rewrites⟩)
  else if is_rewrite_action action then
    (.terminate true "anti_perfectionism_direct_termination",
     ⟨pushRecent s.recent (action.take 100), 0, s.rewrites + 1⟩)
  else (.execute action, ⟨pushRecent s.recent (action.take 100), 0, 0⟩)

/-- Per-step external outcomes for the optimized loop. -/
structure OptStepEnv where
  screenshot : CallRes String
  predict : CallRes (String × List String)
  execRes : CallRes Unit
  deriving DecidableEq

/-- `rate_limit_delays[platform] = min(d * 2.0, 15.0)` applied by
`_optimized_async_call` itself on a rate-limit error before re-raising
(lines 838-845). -/
def optAsyncRateLimitGrow (d : ℚ) : ℚ := min (d * 2) 15

/-- `rate_limit_delays[platform] = min(d * 1.5, 10.0)` applied by the
loop's rate-limit handler (lines 423-426), after the async wrapper's own
update. -/
def optRateLimitGrow (d : ℚ) : ℚ := min (d * 1.5) 10

/-- `rate_limit_delays[platform] = max(d * 0.9, 0.5)` after a successful
`_optimized_async_call` (lines 826-830). -/
def optDecay (d : ℚ) : ℚ := max (d * 0.9) 0.5

/-- Running totals of the optimized loop. -/
structure OptRunState where
  handler : OptState
  delay : ℚ
  apiCalls : Nat
  rateLimits : Nat
  execLog : List String
  deriving DecidableEq

/-- Result of `_run_optimized_agent_loop`: the returned tuple, plus the log
of actions actually sent to `computer.exec`. -/
structure OptRunResult where
  success : Bool
  stepsTaken : Nat
  reason : String
  apiCalls : Nat
  rateLimits : Nat
  execLog : List String
  deriving DecidableEq

/-- The `for step in range(max_steps)` body of `_run_optimized_agent_loop`
(lines 376-545).  `remaining` is the number of iterations left.  The
screenshot-format fixer is called by the source but its output never
affects control flow, so it is not re-invoked here.  A raised screenshot
or a falsy one ends the loop through the outer `except` with a
`loop_exception:` reason. -/
def optGo (env : Nat → OptStepEnv) (maxSteps : Nat) :
    Nat → Nat → OptRunState → OptRunResult
  | 0, _, s =>
    ⟨false, maxSteps, "max_steps_reached", s.apiCalls, s.rateLimits, s.execLog⟩
  | r + 1, step, s =>
    match (env step).screenshot with
    | .exn m =>
      ⟨false, step + 1, "loop_exception: " ++ m, s.apiCalls, s.rateLimits, s.execLog⟩
    | .ok sc =>
      if sc == "" then
        ⟨false, step + 1, "loop_exception: Failed to capture screenshot",
         s.apiCalls, s.rateLimits, s.execLog⟩
      else
        let s := { s with delay := optDecay s.delay }
        match (env step).predict with
        | .exn m =>
          if isRateLimitMsg m then
            optGo env maxSteps r (step + 1)
              { s with rateLimits := s.rateLimits + 1,
                       delay := optRateLimitGrow (optAsyncRateLimitGrow s.delay) }
          else optGo env maxSteps r (step + 1) s
        | .ok (_, code) =>
          let s := { s with apiCalls := s.apiCalls + 1, delay := optDecay s.delay }
          match code with
          | [] => optGo env maxSteps r (step + 1) s
          | a :: _ =>
            if a == "" then optGo env maxSteps r (step + 1) s
            else
              let (outc, hs) := optimizedHandleAction s.handler step a
              let s := { s with handler := hs }
              match outc with
              | .terminate suc reason =>
                ⟨suc, step + 1, reason, s.apiCalls, s.rateLimits, s.execLog⟩
              | .skip => optGo env maxSteps r (step + 1) s
              | .execute act =>
                let s :=
                  match (env step).execRes with
                  | .ok _ =>
                    { s with delay := optDecay s.delay, execLog := s.execLog ++ [act] }
                  | .exn _ => { s with execLog := s.execLog ++ [act] }
                optGo env maxSteps r (step + 1) s

/-- `_run_optimized_agent_loop` with its defaults: `max_steps = 15`, fresh
loop state, initial adaptive delay 1.0 (line 205). -/
def run_optimized_agent_loop (env : Nat → OptStepEnv) : OptRunResult :=
  optGo env 15 15 0 ⟨⟨[], 0, 0⟩, 1, 0, 0, []⟩

/-- The per-platform fields of `OptimizedPublishResult` that the control
flow determines (timing/url fields are external randomness). -/
structure OptimizedPublishResult where
  platform : String
  success : Bool
  content : String
  stepsTaken : Nat
  apiCallsMade : Nat
  rateLimitHits : Nat
  completionReason : String
  errorMessage : Option String
  deriving DecidableEq

/-- `publish_content_optimized` (lines 215-321): initialization failure
yields `initialization_failed`; otherwise the loop's reason is passed
through verbatim into the result. -/
def publish_content_optimized (platform content : String)
    (hashtags : List String) (initOk : Bool) (env : Nat → OptStepEnv) :
    OptimizedPublishResult :=
  if !initOk then
    ⟨platform, false, content, 0, 0, 0, "initialization_failed",
     some ("Failed to initialize " ++ platform)⟩
  else
    let hashtagsStr := " ".intercalate (hashtags.map (fun t => "#" ++ t))
    let fullContent := (content ++ " " ++ hashtagsStr).trim
    let r := run_optimized_agent_loop env
    ⟨platform, r.success, fullContent, r.stepsTaken, r.apiCalls,
     r.rateLimits, r.reason, none⟩

/-! ## ultimate_agent_manager.py: `_detect_action_loop` -/

/-- Per-platform `loop_detection` entry: `{'actions': [...], 'count': n}`. -/
structure LoopData where
  actions : List String
  count : Nat
  deriving DecidableEq

/-- `rewrite_signals` (line 716). -/
def rewrite_signals : List String := ["ctrl+a", "select all", "clear", "hotkey"]

/-- `_detect_action_loop` (lines 683-722): append the 50-char signature,
keep the last 6, and once 4 entries exist declare a loop on an exact
alternating-pair repeat, or on a rewrite-flagged signature occurring at
least twice in the buffer. -/
def detect_action_loop (d : LoopData) (action : String) : Bool × LoopData :=
  let sig := action.take 50
  let actions := lastN 6 (d.actions ++ [sig])
  if decide (4 ≤ actions.length) then
    let recent := lastN 4 actions
    if recent.getD 0 "" == recent.getD 2 "" &&
       recent.getD 1 "" == recent.getD 3 "" then
      (true, { actions := actions, count := d.count + 1 })
    else if rewrite_signals.any (fun sg => strIn sg (lowerS action)) then
      if decide (2 ≤ actions.count sig) then
        (true, { actions := actions, count := d.count })
      else (false, { actions := actions, count := d.count })
    else (false, { actions := actions, count := d.count })
  else (false, { actions := actions, count := d.count })

/-- Feed a sequence of actions to `_detect_action_loop` for one platform
starting from a fresh buffer and collect the returned booleans. -/
def observeSeq (l : List String) : List Bool :=
  (l.foldl
    (fun (acc : List Bool × LoopData) a =>
      let (r, d) := detect_action_loop acc.2 a
      (acc.1 ++ [r], d))
    ([], ⟨[], 0⟩)).1

/-! ## final_step_by_step_agent_manager.py: screenshot normalization

The byte strings handled by `_final_complete_fix_screenshot_format` are
modelled by what PIL can observe of them: whether they carry the PNG
signature, and whether/what PIL decodes.  The `tag` distinguishes
different byte encodings of the same picture, so equality of `Bytes`
values is byte-for-byte equality.  `PIL.Image.save(format='PNG')` of a
given picture is deterministic, so canonically re-encoded PNGs carry
tag 0. -/

inductive ColorMode where
  | rgb
  | other
  deriving DecidableEq

inductive Bytes where
  /-- a byte string with the PNG signature that PIL decodes as `w × h` -/
  | png (w h : Nat) (mode : ColorMode) (tag : Nat)
  /-- a PIL-decodable byte string without the PNG signature (JPEG, BMP, ...) -/
  | nonPngImage (w h : Nat) (mode : ColorMode) (tag : Nat)
  /-- bytes starting with the PNG signature that PIL cannot decode -/
  | pngCorrupt (tag : Nat)
  /-- non-empty undecodable bytes without the PNG signature -/
  | garbage (tag : Nat)
  /-- the empty byte string -/
  | emptyBytes
  deriving DecidableEq

/-- `screenshot_bytes.startswith(b'\x89PNG\r\n\x1a\n')`. -/
def startsPngSig : Bytes → Bool
  | .png _ _ _ _ => true
  | .pngCorrupt _ => true
  | _ => false

/-- `PIL.Image.open`: the decoded size and mode, or `none` when PIL raises. -/
def pilDecode : Bytes → Option (Nat × Nat × ColorMode)
  | .png w h m _ => some (w, h, m)
  | .nonPngImage w h m _ => some (w, h, m)
  | _ => none

/-- Python truthiness of a byte string. -/
def bytesTruthy : Bytes → Bool
  | .emptyBytes => false
  | _ => true

/-- `img.save(buffer, format='PNG')` after `convert('RGB')`: the canonical
PNG encoding of a `w × h` RGB picture. -/
def pilEncodePng (w h : Nat) : Bytes := .png w h .rgb 0

/-- `_final_create_fallback_screenshot` (lines 864-879): a white 1920x1080
RGB PNG.  (`Image.new` on fixed arguments cannot fail, so the hard-coded
last-resort byte string at line 879 is unreachable.) -/
def final_create_fallback_screenshot : Bytes := pilEncodePng 1920 1080

/-- `_final_repair_image_format` (lines 847-862): decode, convert to RGB,
re-encode as PNG at the *original* size; on decode failure fall back. -/
def final_repair_image_format (b : Bytes) : Bytes :=
  match pilDecode b with
  | some (w, h, _) => pilEncodePng w h
  | none => final_create_fallback_screenshot

/-- What the `screenshot_base64` string decodes to: a byte string, or a
`base64.b64decode` failure. -/
inductive B64Payload where
  | valid (b : Bytes)
  | invalid
  deriving DecidableEq

/-- The `screenshot_base64` input string of the normalizer.  A
`data:image`-prefixed string is split on the first comma and the part
after it is decoded; when the split raises, the whole string is decoded
instead — either way one `b64decode` call happens, whose outcome is the
payload. -/
inductive B64Input where
  | empty
  | dataUri (p : B64Payload)
  | bare (p : B64Payload)
  deriving DecidableEq

/-- The common tail of the normalizer once a payload is at hand
(lines 815-841): decode failure falls back; a PNG-signature byte string is
PIL-validated and rejected to the fallback when below 100px in either
dimension; anything else goes through the repair path. -/
def fixPayload : B64Payload → Bytes
  | .invalid => final_create_fallback_screenshot
  | .valid b =>
    if startsPngSig b then
      match pilDecode b with
      | none => final_repair_image_format b
      | some (w, h, _) =>
        if decide (w < 100) || decide (h < 100) then final_create_fallback_screenshot
        else b
    else final_repair_image_format b

/-- `_final_complete_fix_screenshot_format` (lines 790-845). -/
def final_complete_fix_screenshot_format : B64Input → Bytes
  | .empty => final_create_fallback_screenshot
  | .dataUri p => fixPayload p
  | .bare p => fixPayload p

/-- Feeding the normalizer's output bytes back in (base64-encoded, no data
URI): `normalize(normalize_output)` of the spec's idempotence property. -/
def refeed (b : Bytes) : B64Input := .bare (.valid b)

/-- The width PIL reports for a decodable byte string (0 if undecodable). -/
def bytesWidth : Bytes → Nat
  | .png w _ _ _ => w
  | .nonPngImage w _ _ _ => w
  | _ => 0

/-- The height PIL reports for a decodable byte string (0 if undecodable). -/
def bytesHeight : Bytes → Nat
  | .png _ h _ _ => h
  | .nonPngImage _ h _ _ => h
  | _ => 0

/-! ## final_step_by_step_agent_manager.py: adaptive rate-limit delay -/

/-- `rate_limit_delays[platform] = max(current_delay * 0.9, 0.3)` after a
successful `_final_safe_call` (lines 1172-1174). -/
def final_success_decay (d : ℚ) : ℚ := max (d * 0.9) 0.3

/-- `new_delay = min(current_delay * 2.0, 20.0)` in the backoff branch of
`_final_handle_rate_limit_with_api_switch` (lines 927-934). -/
def final_rate_limit_backoff (d : ℚ) : ℚ := min (d * 2) 20

/-- The three events that touch the per-platform adaptive delay: the
backoff branch on a rate-limit error, the key-switch branch (whose agent
reinitialization resets the delay to the initial 0.3, line 324), and a
successful call. -/
inductive RLEvent where
  | backoff
  | keySwitchReset
  | success
  deriving DecidableEq

/-- One delay transition. -/
def rlStepDelay (d : ℚ) : RLEvent → ℚ
  | .backoff => final_rate_limit_backoff d
  | .keySwitchReset => 0.3
  | .success => final_success_decay d

/-! ## final_step_by_step_agent_manager.py: the step executor and session

The cross-call manager state that the claims touch: the configured API key
pool, the key currently pinned to the platform (`platform_api_keys` /
`platform_states[...]['api_key']`), the adaptive delay, and the per-key
usage counters.  Timing-only state (`last_api_call_time`) is not modelled:
it influences sleeps, never control flow. -/

structure MgrState where
  apiKeys : List String
  platformKey : String
  delay : ℚ
  keyUsage : List (String × Int)
  deriving DecidableEq

/-- Delay decay applied by every successful `_final_safe_call`. -/
def decayMgr (st : MgrState) : MgrState :=
  { st with delay := final_success_decay st.delay }

/-- `api_key[-8:] + "***"` as reported in step results. -/
def maskKey (k : String) : String := lastChars 8 k ++ "***"

/-- `api_key_usage[k] -= 1` guarded by presence (lines 914-915). -/
def usageDec (l : List (String × Int)) (k : String) : List (String × Int) :=
  if (l.lookup k).isSome then
    l.map (fun p => if p.1 == k then (p.1, p.2 - 1) else p)
  else l

/-- `if k not in api_key_usage: api_key_usage[k] = 0` then `+= 1`
(lines 916-918). -/
def usageInc (l : List (String × Int)) (k : String) : List (String × Int) :=
  match l.lookup k with
  | some _ => l.map (fun p => if p.1 == k then (p.1, p.2 + 1) else p)
  | none => l ++ [(k, 1)]

/-- `_final_handle_rate_limit_with_api_switch` (lines 892-934).
`pick` stands for `random.choice`'s draw (any index; reduced modulo the
number of available keys), `reinitOk` for whether the agent
reinitialization succeeds — a successful `initialize_final_agent` resets
the platform's adaptive delay to 0.3 (line 324); a failed one is only
logged. -/
def final_handle_rate_limit_with_api_switch (st : MgrState) (hitCount : Nat)
    (pick : Nat) (reinitOk : Bool) : MgrState :=
  let available := st.apiKeys.filter (fun k => !(k == st.platformKey))
  if !available.isEmpty && decide (hitCount ≤ 3) then
    let newKey := available.getD (pick % available.length) ""
    let usage := usageInc (usageDec st.keyUsage st.platformKey) newKey
    { st with platformKey := newKey, keyUsage := usage,
              delay := if reinitOk then 0.3 else st.delay }
  else
    { st with delay := final_rate_limit_backoff st.delay }

/-- Python truthiness of the screenshot string. -/
def b64Truthy : B64Input → Bool
  | .empty => false
  | _ => true

/-- Outcomes of the two external calls made by
`_verify_final_step_success` / `_verify_final_publishing_success`. -/
structure VerifyEnv where
  screenshot : CallRes B64Input
  predict : CallRes (String × List String)
  deriving DecidableEq

/-- `success_indicators` (line 972). -/
def success_indicators : List String :=
  ["yes", "success", "visible", "ready", "posted", "published", "typed",
   "clicked", "active"]

/-- The boolean `_verify_final_step_success` (lines 936-979) computes: a
raised call is swallowed by the `except` and *assumes success*; a falsy
screenshot is a definite failure; an empty narrative assumes success;
otherwise scan for positive tokens.  (The screenshot bytes are normalized
on the way but never affect this result.) -/
def verifyStepBool (v : VerifyEnv) : Bool :=
  match v.screenshot with
  | .exn _ => true
  | .ok b =>
    if !(b64Truthy b) then false
    else
      match v.predict with
      | .exn _ => true
      | .ok (info, _) =>
        if info == "" then true
        else success_indicators.any (fun s => strIn s (lowerS info))

/-- Delay decays produced by the successful calls inside a verification
round (shared shape between step verification and final verification). -/
def verifyStepState (st : MgrState) (v : VerifyEnv) : MgrState :=
  match v.screenshot with
  | .exn _ => st
  | .ok b =>
    let st := decayMgr st
    if !(b64Truthy b) then st
    else
      match v.predict with
      | .exn _ => st
      | .ok _ => decayMgr st

/-- `StepResult` fields determined by control flow (`decision_time` is
wall-clock timing and is not modelled). -/
structure FinalStepResult where
  success : Bool
  stepType : String
  actionTaken : String
  observation : String
  errorMessage : Option String
  recoveryAttempts : Nat
  apiKeyUsed : String
  deriving DecidableEq

/-- The counters one `_execute_final_single_step` call returns:
`(api_calls, rate_limits, image_repairs, forced_verifications)`. -/
structure StepCounters where
  apiCalls : Nat
  rateLimits : Nat
  imageRepairs : Nat
  forcedVerifs : Nat
  deriving DecidableEq

/-- External outcomes for one `_execute_final_single_step` call, in program
order: the step screenshot, the first prediction, the retry prediction
used on the rate-limit path, the forced re-prompt prediction used on a
premature-done action, the `random.choice` draw and reinit outcome of a
key switch, the remote execution, and the verification round. -/
structure StepEnv where
  screenshot : CallRes B64Input
  predict1 : CallRes (String × List String)
  predictRetry : CallRes (String × List String)
  predictForce : CallRes (String × List String)
  keyPick : Nat
  reinitOk : Bool
  execRes : CallRes Unit
  verifyEnv : VerifyEnv
  deriving DecidableEq

/-- The result built by the outer `except` of the step executor
(lines 779-788). -/
def exceptionStepResult (ty m key : String) : FinalStepResult :=
  ⟨false, ty, "exception", m, some m, 0, maskKey key⟩

/-- Lines 612-619. -/
def screenshotFailedResult (ty : String) : FinalStepResult :=
  ⟨false, ty, "screenshot_failed", "Failed to capture screenshot",
   some "Screenshot capture failed", 0, "unknown"⟩

/-- Lines 664-672 and 684-692. -/
def rateLimitRetryFailedResult (ty m key : String) : FinalStepResult :=
  ⟨false, ty, "rate_limit_retry_failed", m,
   some ("Rate limit retry failed: " ++ m), 0, maskKey key⟩

/-- Lines 693-701. -/
def predictionFailedResult (ty m key : String) : FinalStepResult :=
  ⟨false, ty, "prediction_failed", m,
   some ("Agent prediction failed: " ++ m), 0, maskKey key⟩

/-- Lines 703-711. -/
def noActionResult (ty info key : String) : FinalStepResult :=
  ⟨false, ty, "no_action", (if info == "" then "No agent response" else info),
   some "Agent returned no action", 0, maskKey key⟩

/-- Lines 754-764. -/
def execFailedResult (ty a m key : String) : FinalStepResult :=
  ⟨false, ty, a.take 200, m, some ("Action execution failed: " ++ m), 0,
   maskKey key⟩

/-- The step types at which an agent "done" is legitimate (line 716). -/
def verify_step_types : List String :=
  ["verify_tweet_published", "verify_post_published", "verify_published"]

/-- Lines 713-777 of `_execute_final_single_step`: the premature-done
guard, remote execution, and verification, once an action is at hand. -/
def finalContinueWithAction (st : MgrState) (ty : String) (env : StepEnv)
    (info a : String) (c : StepCounters) :
    FinalStepResult × StepCounters × MgrState :=
  let (a, info, c, st) :=
    if strIn "done" (lowerS a) && !(verify_step_types.contains ty) then
      let c := { c with forcedVerifs := c.forcedVerifs + 1 }
      match env.predictForce with
      | .ok (i2, a2) =>
        let st := decayMgr st
        let c := { c with apiCalls := c.apiCalls + 1 }
        match a2 with
        | [] => (a, i2, c, st)
        | b :: _ => if b == "" then (a, i2, c, st) else (b, i2, c, st)
      | .exn _ => (a, info, c, st)
    else (a, info, c, st)
  match env.execRes with
  | .exn m => (execFailedResult ty a m st.platformKey, c, st)
  | .ok _ =>
    let st := decayMgr st
    let ok := verifyStepBool env.verifyEnv
    let st := verifyStepState st env.verifyEnv
    (⟨ok, ty, a.take 200, (if info == "" then "" else info.take 200), none, 0,
      maskKey st.platformKey⟩, c, st)

/-- Lines 703-712: `if not action or not action[0]` then the no-action
failure, else continue with `action[0]`. -/
def finalActs (st : MgrState) (ty : String) (env : StepEnv) (info : String)
    (acts : List String) (c : StepCounters) :
    FinalStepResult × StepCounters × MgrState :=
  match acts with
  | [] => (noActionResult ty info st.platformKey, c, st)
  | a :: _ =>
    if a == "" then (noActionResult ty info st.platformKey, c, st)
    else finalContinueWithAction st ty env info a c

/-- `_execute_final_single_step` (lines 585-788).  The instruction string
only feeds the prediction call, whose outcome the environment provides. -/
def execute_final_single_step (st : MgrState) (ty _instr : String)
    (env : StepEnv) : FinalStepResult × StepCounters × MgrState :=
  match env.screenshot with
  | .exn m => (exceptionStepResult ty m st.platformKey, ⟨0, 0, 0, 0⟩, st)
  | .ok b =>
    let st := decayMgr st
    if !(b64Truthy b) then (screenshotFailedResult ty, ⟨0, 0, 0, 0⟩, st)
    else
      -- `_final_complete_fix_screenshot_format` runs here; its output is
      -- never falsy (it always returns a PNG encoding), so the
      -- fallback-and-count branch at lines 623-626 cannot fire.
      match env.predict1 with
      | .ok (info, acts) =>
        let st := decayMgr st
        finalActs st ty env info acts ⟨1, 0, 0, 0⟩
      | .exn m =>
        if isRateLimitMsg m then
          if decide (2 ≤ st.apiKeys.length) then
            let st := final_handle_rate_limit_with_api_switch st 1 env.keyPick env.reinitOk
            match env.predictRetry with
            | .ok (info, acts) =>
              let st := decayMgr st
              finalActs st ty env info acts ⟨1, 1, 0, 0⟩
            | .exn m2 =>
              (rateLimitRetryFailedResult ty m2 st.platformKey, ⟨0, 1, 0, 0⟩, st)
          else
            -- single-key mode: sleep min(hits*3, 15) then retry once
            match env.predictRetry with
            | .ok (info, acts) =>
              let st := decayMgr st
              finalActs st ty env info acts ⟨1, 1, 0, 0⟩
            | .exn m2 =>
              (rateLimitRetryFailedResult ty m2 st.platformKey, ⟨0, 1, 0, 0⟩, st)
        else (predictionFailedResult ty m st.platformKey, ⟨0, 0, 0, 0⟩, st)

/-- External outcomes for one recovery strategy attempt. -/
structure RecoveryEnv where
  screenshot : CallRes B64Input
  predict : CallRes (String × List String)
  execRes : CallRes Unit
  verifyEnv : VerifyEnv
  deriving DecidableEq

/-- `recovery_strategies` (lines 993-1021). -/
def recovery_strategies_for (ty platform orig : String) : List String :=
  if ty == "navigate_to_compose" then
    ["Press Tab key to navigate to the compose area on " ++ platform,
     "Click in the center area to find compose section",
     "Look for 'What's happening?' or 'Start a post' and click it",
     "Use keyboard shortcut to focus on compose area"]
  else if ty == "enter_tweet_content" then
    ["Clear any existing text and type the content",
     "Press Ctrl+A to select all, then type the new content",
     "Click in the text area first, then type the content",
     "Use keyboard focus and type directly"]
  else if ty == "enter_post_content" then
    ["Clear any existing text and type the content",
     "Press Ctrl+A to select all, then type the new content",
     "Click in the text area first, then type the content",
     "Use direct keyboard input"]
  else if ty == "find_and_click_post" then
    ["Look for 'POST' button and click it",
     "Look for 'Post' button and click it",
     "Press Enter key to submit",
     "Look for 'Publish' or 'Share' button and click it",
     "Use keyboard shortcut Ctrl+Enter to post"]
  else [orig]

/-- One iteration of the strategy loop in `_attempt_final_step_recovery`
(lines 1023-1057): any raised call or missing data moves on to the next
strategy; a verified success returns the executed action. -/
def attemptStrategy (st : MgrState) (renv : RecoveryEnv) :
    Option String × MgrState :=
  match renv.screenshot with
  | .exn _ => (none, st)
  | .ok b =>
    let st := decayMgr st
    if !(b64Truthy b) then (none, st)
    else
      match renv.predict with
      | .exn _ => (none, st)
      | .ok (_, acts) =>
        let st := decayMgr st
        match acts with
        | [] => (none, st)
        | a :: _ =>
          if a == "" then (none, st)
          else
            match renv.execRes with
            | .exn _ => (none, st)
            | .ok _ =>
              let st := decayMgr st
              let ok := verifyStepBool renv.verifyEnv
              let st := verifyStepState st renv.verifyEnv
              (if ok then some a else none, st)

/-- Lines 1059-1066. -/
def allRecoveryFailedResult (ty key : String) : FinalStepResult :=
  ⟨false, ty ++ "_recovery", "all_recovery_failed",
   "All recovery strategies failed", some "Could not recover from step failure",
   0, maskKey key⟩

/-- The strategy loop; the `Nat` in the result is `r_api` exactly as the
source returns it: the literal 1 on a verified success, 0 otherwise. -/
def recoveryGo (ty : String) (renv : Nat → RecoveryEnv) :
    Nat → MgrState → List String → FinalStepResult × Nat × MgrState
  | _, st, [] => (allRecoveryFailedResult ty st.platformKey, 0, st)
  | i, st, strat :: rest =>
    match attemptStrategy st (renv i) with
    | (some a, st') =>
      (⟨true, ty ++ "_recovery", a.take 200, "Recovery successful: " ++ strat,
        none, 1, maskKey st'.platformKey⟩, 1, st')
    | (none, st') => recoveryGo ty renv (i + 1) st' rest

/-- `_attempt_final_step_recovery` (lines 981-1066). -/
def attempt_final_step_recovery (st : MgrState) (ty platform orig : String)
    (renv : Nat → RecoveryEnv) : FinalStepResult × Nat × MgrState :=
  recoveryGo ty renv 0 st (recovery_strategies_for ty platform orig)

/-- `success_phrases` of `_verify_final_publishing_success`
(lines 1088-1092). -/
def success_phrases : List String :=
  ["published", "posted", "shared", "success", "sent", "live", "visible",
   "completed", "done", "successful", "confirmed", "uploaded"]

/-- `_verify_final_publishing_success` (lines 1068-1100): unlike step
verification, every failure path here (raised call, falsy screenshot,
empty narrative) returns `False`. -/
def finalPublishVerifyBool (v : VerifyEnv) : Bool :=
  match v.screenshot with
  | .exn _ => false
  | .ok b =>
    if !(b64Truthy b) then false
    else
      match v.predict with
      | .exn _ => false
      | .ok (info, _) =>
        if info == "" then false
        else success_phrases.any (fun p => strIn p (lowerS info))

/-- The step types whose failure triggers recovery (line 553). -/
def critical_step_types : List String :=
  ["enter_tweet_content", "enter_post_content", "find_and_click_post"]

/-- The twitter step sequence (lines 495-502). -/
def twitter_step_sequence (content : String) : List (String × String) :=
  [("navigate_to_compose",
    "Navigate to Twitter compose area and click on the 'What's happening?' text box to start a new tweet"),
   ("verify_composer_ready",
    "Verify that the tweet composer is now active and ready for typing"),
   ("enter_tweet_content",
    "Type the following exact text into the tweet composer: " ++ content.take 200),
   ("verify_content_entered",
    "Verify that the text was correctly typed in the composer"),
   ("find_and_click_post",
    "Find the blue 'POST' button and click it to publish the tweet"),
   ("verify_tweet_published",
    "Verify that the tweet was successfully published by looking for success confirmation")]

/-- The linkedin step sequence (lines 504-511). -/
def linkedin_step_sequence (content : String) : List (String × String) :=
  [("navigate_to_compose",
    "Navigate to LinkedIn compose area and click on 'Start a post' or the post composer"),
   ("verify_composer_ready",
    "Verify that the LinkedIn post composer is now active and ready for typing"),
   ("enter_post_content",
    "Type the following exact text into the post composer: " ++ content.take 300),
   ("verify_content_entered",
    "Verify that the text was correctly typed in the composer"),
   ("find_and_click_post",
    "Find the 'Post' button and click it to publish the LinkedIn post"),
   ("verify_post_published",
    "Verify that the LinkedIn post was successfully published")]

/-- The generic step sequence (lines 513-518). -/
def default_step_sequence (platform content : String) : List (String × String) :=
  [("navigate_to_compose", "Navigate to compose area on " ++ platform),
   ("enter_content", "Type this content: " ++ content.take 200),
   ("publish_content", "Click the publish button to post the content"),
   ("verify_published", "Verify content was published successfully")]

/-- Step sequence selection (lines 494-518). -/
def step_sequence_for (platform content : String) : List (String × String) :=
  if platform == "twitter" then twitter_step_sequence content
  else if platform == "linkedin" then linkedin_step_sequence content
  else default_step_sequence platform content

/-- External outcomes for one whole session.  `outerExn` stands for an
exception escaping the body of `publish_content_final_step_by_step`
(none of the modelled callees raise, so it abstracts failures of
unmodelled glue such as the socket emits), caught at lines 450-466. -/
structure SessionEnv where
  needsInit : Bool
  initOk : Bool
  stepEnvs : Nat → StepEnv
  recoveryEnvs : Nat → Nat → RecoveryEnv
  finalVerify : VerifyEnv
  outerExn : Option String

/-- Session-level accumulators of `_execute_final_publishing_steps`. -/
structure SessAcc where
  steps : List FinalStepResult
  apiCalls : Nat
  rateLimits : Nat
  imageRepairs : Nat
  forcedVerifs : Nat
  keysUsed : List String
  deriving DecidableEq

def emptySessAcc : SessAcc := ⟨[], 0, 0, 0, 0, []⟩

/-- Lines 538-546: add a step result and its counters, tracking distinct
key masks. -/
def addStepResult (acc : SessAcc) (res : FinalStepResult) (c : StepCounters) :
    SessAcc :=
  { steps := acc.steps ++ [res],
    apiCalls := acc.apiCalls + c.apiCalls,
    rateLimits := acc.rateLimits + c.rateLimits,
    imageRepairs := acc.imageRepairs + c.imageRepairs,
    forcedVerifs := acc.forcedVerifs + c.forcedVerifs,
    keysUsed := if acc.keysUsed.contains res.apiKeyUsed then acc.keysUsed
                else acc.keysUsed ++ [res.apiKeyUsed] }

/-- The per-instruction loop of `_execute_final_publishing_steps`
(lines 520-583): a failed critical step goes through recovery and, when
recovery also fails, ends the session with `critical_step_failed`;
non-critical failures continue; after the sequence, the final holistic
verification decides between `task_completed_successfully` and
`verification_failed`. -/
def goSteps (platform : String) (env : SessionEnv) :
    Nat → MgrState → List (String × String) → SessAcc →
    Bool × String × SessAcc × MgrState
  | _, st, [], acc =>
    let ok := finalPublishVerifyBool env.finalVerify
    let st := verifyStepState st env.finalVerify
    (ok, if ok then "task_completed_successfully" else "verification_failed",
     acc, st)
  | i, st, (ty, instr) :: rest, acc =>
    let r := execute_final_single_step st ty instr (env.stepEnvs i)
    let res := r.1
    let st' := r.2.2
    let acc := addStepResult acc res r.2.1
    if res.success then goSteps platform env (i + 1) st' rest acc
    else if critical_step_types.contains ty then
      let rec2 := attempt_final_step_recovery st' ty platform instr (env.recoveryEnvs i)
      let recRes := rec2.1
      let st'' := rec2.2.2
      let acc := { acc with apiCalls := acc.apiCalls + rec2.2.1 }
      if recRes.success then
        goSteps platform env (i + 1) st'' rest
          { acc with steps := acc.steps ++ [recRes] }
      else (false, "critical_step_failed", acc, st'')
    else goSteps platform env (i + 1) st' rest acc

/-- The control-flow-determined fields of `FinalStepByStepPublishResult`. -/
structure FinalPublishResult where
  platform : String
  success : Bool
  content : String
  stepsExecuted : List FinalStepResult
  errorMessage : Option String
  apiCallsMade : Nat
  rateLimitHits : Nat
  completionReason : String
  apiKeysUsed : List String
  loopInterventions : Nat
  imageRepairs : Nat
  forcedVerifications : Nat
  deriving DecidableEq

/-- `publish_content_final_step_by_step` (lines 337-466): initialization
failure is terminal with `initialization_failed`; an exception escaping
the body is converted at lines 450-466 into a failed result carrying the
exception text and `exception_occurred`; otherwise the step workflow runs.
(`loop_interventions` is declared by the source but never incremented.) -/
def publish_content_final_step_by_step (st : MgrState)
    (platform content : String) (hashtags : List String) (env : SessionEnv) :
    FinalPublishResult :=
  match env.outerExn with
  | some e =>
    { platform := platform, success := false, content := content,
      stepsExecuted := [], errorMessage := some e, apiCallsMade := 0,
      rateLimitHits := 0, completionReason := "exception_occurred",
      apiKeysUsed := [], loopInterventions := 0, imageRepairs := 0,
      forcedVerifications := 0 }
  | none =>
    if env.needsInit && !env.initOk then
      { platform := platform, success := false, content := content,
        stepsExecuted := [], errorMessage := some ("Failed to initialize " ++ platform),
        apiCallsMade := 0, rateLimitHits := 0,
        completionReason := "initialization_failed", apiKeysUsed := [],
        loopInterventions := 0, imageRepairs := 0, forcedVerifications := 0 }
    else
      let hashtagsStr := " ".intercalate (hashtags.map (fun t => "#" ++ t))
      let fullContent := (content ++ " " ++ hashtagsStr).trim
      let r :=
        goSteps platform env 0 st (step_sequence_for platform fullContent)
          emptySessAcc
      let acc := r.2.2.1
      { platform := platform, success := r.1, content := fullContent,
        stepsExecuted := acc.steps, errorMessage := none,
        apiCallsMade := acc.apiCalls, rateLimitHits := acc.rateLimits,
        completionReason := r.2.1, apiKeysUsed := acc.keysUsed,
        loopInterventions := 0, imageRepairs := acc.imageRepairs,
        forcedVerifications := acc.forcedVerifs }

/-- The closed completion-reason vocabulary named by the specification. -/
def completion_reason_enum : List String :=
  ["task_completed_successfully", "critical_step_failed",
   "verification_failed", "initialization_failed", "max_steps_reached",
   "loop_intervention_forced_completion", "exception_occurred"]

/-! ## app_fixed.py: the publishing coordinator -/

/-- One element of the `asyncio.gather(..., return_exceptions=True)` result
list: a per-platform result, or the exception that platform's task raised. -/
inductive GatherRes where
  | ok (r : OptimizedPublishResult)
  | exc (msg : String)
  deriving DecidableEq

/-- The per-platform entry of the results dict (lines 510-533): an
exception becomes a failed entry carrying `str(exc)`; a result is
projected field by field. -/
structure CoordEntry where
  success : Bool
  content : Option String
  errorMessage : Option String
  stepsTaken : Option Nat
  deriving DecidableEq

def entryFor : GatherRes → CoordEntry
  | .exc m => ⟨false, none, some m, none⟩
  | .ok r => ⟨r.success, some r.content, r.errorMessage, some r.stepsTaken⟩

/-- The aggregation section of `_execute_official_publishing`
(lines 495-553): `zip(platforms, platform_results)` mapped to entries. -/
def execute_official_publishing (platforms : List String)
    (outcomes : List GatherRes) : List (String × CoordEntry) :=
  (platforms.zip outcomes).map (fun pr => (pr.1, entryFor pr.2))

/-- `_publish_single_platform_parallel` (lines 596-656): a raised manager
call is converted into a failed `OptimizedPublishResult` with the
exception text and `exception_occurred`. -/
def publish_single_platform_parallel (platform content : String)
    (call : CallRes OptimizedPublishResult) : OptimizedPublishResult :=
  match call with
  | .ok r => r
  | .exn e => ⟨platform, false, content, 0, 0, 0, "exception_occurred", some e⟩

/-! ## Concrete environments used by the closed theorems and witnesses -/

/-- A scripted agent that answers "done" from the very first step. -/
def envDoneAtStart : Nat → OptStepEnv :=
  fun _ => ⟨.ok "s", .ok ("", ["done"]), .ok ()⟩

/-- Four distinct benign click actions. -/
def benignAction (i : Nat) : String :=
  ["click one", "click two", "click three", "click four"].getD i "x"

/-- A scripted agent that works for four steps and then answers "done". -/
def envDoneAfterFour : Nat → OptStepEnv :=
  fun i =>
    if i < 4 then ⟨.ok "s", .ok ("", [benignAction i]), .ok ()⟩
    else ⟨.ok "s", .ok ("", ["done"]), .ok ()⟩

/-- A scripted agent that repeats the same benign action every step. -/
def envRepeatAction : Nat → OptStepEnv :=
  fun _ => ⟨.ok "s", .ok ("", ["scroll down the page"]), .ok ()⟩

/-- A scripted agent proposing a select-all edit on its first step. -/
def envSelectAll : Nat → OptStepEnv :=
  fun _ => ⟨.ok "s", .ok ("", ["select all"]), .ok ()⟩

/-- A healthy 1920x1080 screenshot as the remote environment encodes it. -/
def goodPng : B64Input := .bare (.valid (.png 1920 1080 .rgb 1))

/-- A verification round that reports success. -/
def cleanVerify : VerifyEnv := ⟨.ok goodPng, .ok ("yes", [])⟩

/-- A step on which every external call succeeds. -/
def cleanStep : StepEnv :=
  ⟨.ok goodPng, .ok ("ok", ["click the box"]), .ok ("ok", ["click the box"]),
   .ok ("ok", ["click the box"]), 0, true, .ok (), cleanVerify⟩

/-- A step whose first decision call is rate-limited and whose retry
succeeds. -/
def rlStep : StepEnv := { cleanStep with predict1 := .exn "rate limit 429" }

/-- A step whose first decision call and retry are both rate-limited. -/
def rlStepFail : StepEnv := { rlStep with predictRetry := .exn "rate limit again" }

/-- A recovery attempt on which every external call succeeds. -/
def cleanRecovery : RecoveryEnv :=
  ⟨.ok goodPng, .ok ("ok", ["try again"]), .ok (), cleanVerify⟩

/-- A session whose step 0 hits one rate limit (retry succeeds) and whose
other steps are clean; the final verification sees "published". -/
def envOneRateLimit : SessionEnv :=
  { needsInit := false, initOk := true,
    stepEnvs := fun i => if i == 0 then rlStep else cleanStep,
    recoveryEnvs := fun _ _ => cleanRecovery,
    finalVerify := ⟨.ok goodPng, .ok ("published", [])⟩,
    outerExn := none }

/-- A manager holding a 2-credential pool with the first key pinned. -/
def stTwoKeys : MgrState :=
  ⟨["key_one", "key_two"], "key_one", 0.3, [("key_one", 1)]⟩

/-- StepEnv variants exercising the failure interfaces of the step
executor. -/
def envScreenshotRaise : StepEnv := { cleanStep with screenshot := .exn "boom" }

def envScreenshotEmpty : StepEnv := { cleanStep with screenshot := .ok .empty }

def envPredictBroken : StepEnv := { cleanStep with predict1 := .exn "model exploded" }

def envNoAction : StepEnv := { cleanStep with predict1 := .ok ("thinking", []) }

def envExecRaise : StepEnv := { cleanStep with execRes := .exn "vm gone" }

/-- A small non-PNG screenshot (e.g. a 50x50 JPEG), base64-encoded bare. -/
def smallJpegInput : B64Input := .bare (.valid (.nonPngImage 50 50 .rgb 7))

/-- A healthy already-valid PNG input for the idempotence witness. -/
def validPngInput : B64Input := .bare (.valid (.png 1920 1080 .rgb 5))

/-- A successful gather outcome used by the coordinator witness. -/
def okGatherResult : OptimizedPublishResult :=
  ⟨"twitter", true, "posted text", 5, 5, 0, "task_completed", none⟩

/-- A session whose body raises (abstracted), exercising the
exception-to-result conversion of the publish wrapper. -/
def envOuterBoom : SessionEnv := { envOneRateLimit with outerExn := some "session crashed" }

end PostPrism

namespace PostPrism

/-! ## Claim theorems -/

/-- C3: Loop-guard determinism.  For any two distinct action signatures
`A` and `B`, feeding `_detect_action_loop` the sequence `[A, B, A, B]`
on a fresh per-platform buffer returns no intervention on the first three
calls and an intervention on the fourth, where the last four buffer
entries satisfy `h[-4]==h[-2]` and `h[-3]==h[-1]`. -/
theorem loop_guard_determinism (A B : String) (_hAB : A ≠ B) :
    observeSeq [A, B, A, B] = [false, false, false, true] := by
  simp [observeSeq, detect_action_loop, lastN, List.getD]

/-- Witness for `loop_guard_determinism` at `A = "alpha"`, `B = "beta"`. -/
theorem loop_guard_determinism_witness :
    ("alpha" : String) ≠ "beta" ∧
    observeSeq ["alpha", "beta", "alpha", "beta"] = [false, false, false, true] :=
  ⟨by decide, loop_guard_determinism "alpha" "beta" (by decide)⟩

/-- C1 (failing input): the optimized loop's minimum-step floor only gates
`_is_task_completed_optimized`; the special-command handler right below it
(lines 474-478) honors a "done" action at step index 0 and declares the
session successfully complete with reason `agent_declared_done` — the
session IS declared complete at step 0, contradicting the floor the code
itself logs ("Ignoring premature completion ... need minimum 4 steps").
With the same "done" arriving after four executed steps, the floor-gated
check fires instead and reports `task_completed`. -/
theorem completion_floor_bypassed_by_done_handler :
    (publish_content_optimized "twitter" "post body" [] true envDoneAtStart).success = true ∧
    (publish_content_optimized "twitter" "post body" [] true envDoneAtStart).completionReason
      = "agent_declared_done" ∧
    (publish_content_optimized "twitter" "post body" [] true envDoneAtStart).stepsTaken = 1 ∧
    (publish_content_optimized "twitter" "post body" [] true envDoneAfterFour).completionReason
      = "task_completed" ∧
    (publish_content_optimized "twitter" "post body" [] true envDoneAfterFour).stepsTaken = 5 := by
  refine ⟨by decide, by decide, by decide, by decide, by decide⟩

/-- C2 (counterexample): a decodable 50x50 image *without* the PNG
signature is routed through the repair path, which re-encodes it at its
original size with no minimum-size check: the normalizer returns a 50x50
PNG, not the fixed 1920x1080 fallback, so the returned image is below both
100px and the fallback resolution. -/
theorem normalizer_small_nonpng_escapes_fallback :
    final_complete_fix_screenshot_format smallJpegInput = .png 50 50 .rgb 0 ∧
    bytesWidth (final_complete_fix_screenshot_format smallJpegInput) < 100 ∧
    final_complete_fix_screenshot_format smallJpegInput ≠ final_create_fallback_screenshot ∧
    bytesWidth (final_complete_fix_screenshot_format smallJpegInput) <
      bytesWidth final_create_fallback_screenshot := by
  refine ⟨rfl, by decide, by decide, by decide⟩

/-- Every output of the normalizer is a PNG-signature encoding. -/
theorem fix_output_is_png (inp : B64Input) :
    ∃ w h m t, final_complete_fix_screenshot_format inp = .png w h m t := by
  rcases inp with _ | p | p
  · exact ⟨1920, 1080, .rgb, 0, rfl⟩
  all_goals
    rcases p with b | _
    · rcases b with ⟨w, h, m, t⟩ | ⟨w, h, m, t⟩ | t | t | _
      · by_cases hw : w < 100
        · exact ⟨1920, 1080, .rgb, 0, by
            simp [final_complete_fix_screenshot_format, fixPayload,
              startsPngSig, pilDecode, hw, final_create_fallback_screenshot,
              pilEncodePng]⟩
        · by_cases hh : h < 100
          · exact ⟨1920, 1080, .rgb, 0, by
              simp [final_complete_fix_screenshot_format, fixPayload,
                startsPngSig, pilDecode, hw, hh,
                final_create_fallback_screenshot, pilEncodePng]⟩
          · exact ⟨w, h, m, t, by
              simp [final_complete_fix_screenshot_format, fixPayload,
                startsPngSig, pilDecode, hw, hh]⟩
      · exact ⟨w, h, .rgb, 0, rfl⟩
      · exact ⟨1920, 1080, .rgb, 0, rfl⟩
      · exact ⟨1920, 1080, .rgb, 0, rfl⟩
      · exact ⟨1920, 1080, .rgb, 0, rfl⟩
    · exact ⟨1920, 1080, .rgb, 0, rfl⟩

/-- C2 (amended): the normalizer is total and always returns a decodable
PNG-signature image; an input that already carries the PNG signature and
decodes below 100px in either dimension is replaced by the 1920x1080
fallback, but an input *without* the PNG signature is re-encoded by the
repair path at its original size with no size check; undecodable, empty
or invalid-base64 input yields the fallback. -/
theorem normalizer_amended_behavior :
    (∀ inp : B64Input,
      (pilDecode (final_complete_fix_screenshot_format inp)).isSome = true ∧
      startsPngSig (final_complete_fix_screenshot_format inp) = true) ∧
    (∀ w h m t, final_complete_fix_screenshot_format (.bare (.valid (.png w h m t))) =
      if w < 100 ∨ h < 100 then final_create_fallback_screenshot else .png w h m t) ∧
    (∀ w h m t, final_complete_fix_screenshot_format (.bare (.valid (.nonPngImage w h m t))) =
      pilEncodePng w h) ∧
    final_complete_fix_screenshot_format (.bare .invalid) = final_create_fallback_screenshot ∧
    final_complete_fix_screenshot_format .empty = final_create_fallback_screenshot ∧
    (∀ t, final_complete_fix_screenshot_format (.bare (.valid (.garbage t))) =
      final_create_fallback_screenshot) ∧
    (∀ t, final_complete_fix_screenshot_format (.bare (.valid (.pngCorrupt t))) =
      final_create_fallback_screenshot) := by
  refine ⟨?_, ?_, ?_, rfl, rfl, fun t => rfl, fun t => rfl⟩
  · intro inp
    obtain ⟨w, h, m, t, hp⟩ := fix_output_is_png inp
    rw [hp]
    exact ⟨rfl, rfl⟩
  · intro w h m t
    simp only [final_complete_fix_screenshot_format, fixPayload, startsPngSig,
      pilDecode]
    by_cases hw : w < 100
    · simp [hw]
    · by_cases hh : h < 100 <;> simp [hw, hh]
  · intro w h m t
    rfl

/-- C9 (counterexample): normalization is not idempotent.  The 50x50
non-PNG input is repaired to a 50x50 PNG; renormalizing that output
hits the PNG-signature size check and replaces it with the 1920x1080
fallback, so `normalize(normalize(x))` differs from `normalize(x)`. -/
theorem normalize_not_idempotent_on_small_repair :
    final_complete_fix_screenshot_format smallJpegInput = .png 50 50 .rgb 0 ∧
    final_complete_fix_screenshot_format
        (refeed (final_complete_fix_screenshot_format smallJpegInput)) =
      final_create_fallback_screenshot ∧
    final_complete_fix_screenshot_format
        (refeed (final_complete_fix_screenshot_format smallJpegInput)) ≠
      final_complete_fix_screenshot_format smallJpegInput := by
  refine ⟨rfl, rfl, by decide⟩

/-- C9 (amended): normalization is idempotent on every input whose
normalized output is at least 100px in both dimensions — in particular
already-valid PNGs of 100px or more pass through byte-for-byte unchanged
and the fallback is a fixed point; only outputs of the repair path below
100px are replaced by the fallback on a second pass. -/
theorem normalize_idempotent_on_large_outputs (inp : B64Input)
    (hw : 100 ≤ bytesWidth (final_complete_fix_screenshot_format inp))
    (hh : 100 ≤ bytesHeight (final_complete_fix_screenshot_format inp)) :
    final_complete_fix_screenshot_format
        (refeed (final_complete_fix_screenshot_format inp)) =
      final_complete_fix_screenshot_format inp := by
  rcases houtput : final_complete_fix_screenshot_format inp with
      ⟨w, h, m, t⟩ | ⟨w, h, m, t⟩ | t | t | _
  · rw [houtput] at hw hh
    simp only [bytesWidth, bytesHeight] at hw hh
    simp [refeed, final_complete_fix_screenshot_format, fixPayload,
      startsPngSig, pilDecode, Nat.not_lt.mpr hw, Nat.not_lt.mpr hh]
  all_goals
    obtain ⟨w', h', m', t', hpng⟩ := fix_output_is_png inp
    rw [houtput] at hpng
    exact absurd hpng (by simp)

/-- Witness for `normalize_idempotent_on_large_outputs` at an already-valid
1920x1080 PNG input. -/
theorem normalize_idempotent_witness :
    100 ≤ bytesWidth (final_complete_fix_screenshot_format validPngInput) ∧
    100 ≤ bytesHeight (final_complete_fix_screenshot_format validPngInput) ∧
    final_complete_fix_screenshot_format
        (refeed (final_complete_fix_screenshot_format validPngInput)) =
      final_complete_fix_screenshot_format validPngInput :=
  ⟨by decide, by decide,
   normalize_idempotent_on_large_outputs validPngInput (by decide) (by decide)⟩

/-- One delay transition keeps the delay inside `[0.3, 20]`. -/
theorem rlStepDelay_bounds (d : ℚ) (e : RLEvent) (h1 : (0.3 : ℚ) ≤ d)
    (h2 : d ≤ 20) : (0.3 : ℚ) ≤ rlStepDelay d e ∧ rlStepDelay d e ≤ 20 := by
  cases e with
  | backoff =>
    simp only [rlStepDelay, final_rate_limit_backoff]
    exact ⟨le_min (by linarith) (by norm_num), min_le_right _ _⟩
  | keySwitchReset =>
    simp only [rlStepDelay]
    exact ⟨le_refl _, by norm_num⟩
  | success =>
    simp only [rlStepDelay, final_success_decay]
    exact ⟨le_max_right _ _, max_le (by linarith) (by norm_num)⟩

/-- Any event sequence keeps the delay inside `[0.3, 20]`. -/
theorem rlFold_bounds :
    ∀ (es : List RLEvent) (d : ℚ), (0.3 : ℚ) ≤ d → d ≤ 20 →
      (0.3 : ℚ) ≤ es.foldl rlStepDelay d ∧ es.foldl rlStepDelay d ≤ 20 := by
  intro es
  induction es with
  | nil => intro d h1 h2; exact ⟨h1, h2⟩
  | cons e tl ih =>
    intro d h1 h2
    obtain ⟨g1, g2⟩ := rlStepDelay_bounds d e h1 h2
    exact ih (rlStepDelay d e) g1 g2

/-- The backoff update never decreases an in-range delay. -/
theorem backoff_mono (d : ℚ) (h1 : (0.3 : ℚ) ≤ d) (h2 : d ≤ 20) :
    d ≤ final_rate_limit_backoff d :=
  le_min (by linarith) h2

/-- Iterated backoff stays inside `[0.3, 20]`. -/
theorem backoff_iter_bounds :
    ∀ n : Nat, (0.3 : ℚ) ≤ final_rate_limit_backoff^[n] 0.3 ∧
      final_rate_limit_backoff^[n] 0.3 ≤ 20 := by
  intro n
  induction n with
  | zero => exact ⟨le_refl _, by norm_num⟩
  | succ k ih =>
    rw [Function.iterate_succ_apply']
    exact rlStepDelay_bounds _ RLEvent.backoff ih.1 ih.2

/-- C4: Rate-limiter delay invariant.  Starting from the initial 0.3s
per-platform delay, every event touching the adaptive delay — the
doubling-capped-at-20 backoff applied on a rate-limit error, the reset to
0.3 performed by a key-switch reinitialization, and the 0.9-decay
floored at 0.3 applied on success — keeps the delay within
`[0.3, 20]` under any interleaving; and iterating the rate-limit backoff
alone grows the delay monotonically without ever exceeding the 20s
ceiling. -/
theorem rate_limit_delay_invariant :
    (∀ es : List RLEvent,
      (0.3 : ℚ) ≤ es.foldl rlStepDelay 0.3 ∧ es.foldl rlStepDelay 0.3 ≤ 20) ∧
    (∀ n : Nat,
      final_rate_limit_backoff^[n] 0.3 ≤ final_rate_limit_backoff^[n + 1] 0.3 ∧
      final_rate_limit_backoff^[n] 0.3 ≤ 20) := by
  constructor
  · intro es
    exact rlFold_bounds es 0.3 (le_refl _) (by norm_num)
  · intro n
    obtain ⟨h1, h2⟩ := backoff_iter_bounds n
    refine ⟨?_, h2⟩
    rw [Function.iterate_succ_apply']
    exact backoff_mono _ h1 h2

/-- C6 (counterexample): the optimized loop terminates a session whose
agent repeats one action with reason `loop_detection_termination`, which
the publish wrapper passes verbatim into `completion_reason` — a value
outside the specification's closed enum (the loop can likewise emit
`task_completed`, `agent_declared_done`, `agent_declared_failed`,
`anti_perfectionism_direct_termination`, and free-form
`loop_exception: ...` text). -/
theorem completion_reason_outside_enum :
    (publish_content_optimized "twitter" "post body" [] true envRepeatAction).completionReason
      = "loop_detection_termination" ∧
    "loop_detection_termination" ∉ completion_reason_enum := by
  exact ⟨by decide, by decide⟩

/-- The step workflow of the final manager only ends with one of three
reasons. -/
theorem goSteps_reason_mem (platform : String) (env : SessionEnv) :
    ∀ (seq : List (String × String)) (i : Nat) (st : MgrState) (acc : SessAcc),
      (goSteps platform env i st seq acc).2.1 ∈
        ["task_completed_successfully", "verification_failed",
         "critical_step_failed"] := by
  intro seq
  induction seq with
  | nil =>
    intro i st acc
    simp only [goSteps]
    split <;> simp
  | cons hd tl ih =>
    intro i st acc
    obtain ⟨ty, instr⟩ := hd
    simp only [goSteps]
    split
    · exact ih _ _ _
    · split
      · split
        · exact ih _ _ _
        · simp
      · exact ih _ _ _

/-- The workflow's three reasons all belong to the specification enum. -/
theorem workflow_reason_subset (s : String)
    (hs : s ∈ ["task_completed_successfully", "verification_failed",
               "critical_step_failed"]) :
    s ∈ completion_reason_enum := by
  simp only [List.mem_cons, List.not_mem_nil, or_false] at hs
  rcases hs with rfl | rfl | rfl <;> decide

/-- C6 (amended): the spec's closed completion-reason enum does hold for
the final step-by-step manager: every `publish_content_final_step_by_step`
result carries a completion reason drawn from the enum (it only ever emits
`task_completed_successfully`, `critical_step_failed`,
`verification_failed`, `initialization_failed` and `exception_occurred`);
but the optimized and ultimate loops cited by the same claim also emit
reasons outside the enum, as the counterexample shows. -/
theorem final_manager_reason_in_enum (st : MgrState)
    (platform content : String) (hashtags : List String) (env : SessionEnv) :
    (publish_content_final_step_by_step st platform content hashtags env).completionReason
      ∈ completion_reason_enum := by
  obtain ⟨ni, io, se, re, fv, oe⟩ := env
  rcases oe with _ | e
  · dsimp only [publish_content_final_step_by_step]
    split
    · simp [completion_reason_enum]
    · exact workflow_reason_subset _
        (goSteps_reason_mem platform _ _ 0 st emptySessAcc)
  · simp [publish_content_final_step_by_step, completion_reason_enum]

/-- C10: Anti-perfectionism direct termination.  Whenever the optimized
loop's action handling reaches the anti-perfectionism check — the action
did not trip loop detection, did not pass the floor-gated completion
check, and is none of the done/fail/next/wait special commands — and
`_is_rewrite_action` classifies the action as an edit/rewrite, the session
is immediately terminated with `success = true` and reason
`anti_perfectionism_direct_termination`; in particular a rewrite-classified
first action ends the whole loop at step 1 with an *empty* remote
execution log, i.e. without the action ever being sent to the remote
environment. -/
theorem anti_perfectionism_terminates
    (s : OptState) (step : Nat) (action : String)
    (hloop : (decide (2 ≤ (pushRecent s.recent (action.take 100)).length) &&
      allEqualStr (pushRecent s.recent (action.take 100))) = false)
    (hcomp : (decide (3 ≤ step) && is_task_completed_optimized action) = false)
    (hdone : strIn "done" (lowerS action) = false)
    (hfail : strIn "fail" (lowerS action) = false)
    (hnext : strIn "next" (lowerS action) = false)
    (hwait : strIn "wait" (lowerS action) = false)
    (hrw : is_rewrite_action action = true) :
    (optimizedHandleAction s step action).1 =
      .terminate true "anti_perfectionism_direct_termination" ∧
    ∀ (env : Nat → OptStepEnv) (sc info : String),
      (env 0).screenshot = .ok sc → (sc == "") = false →
      (env 0).predict = .ok (info, [action]) → (action == "") = false →
      run_optimized_agent_loop env =
        ⟨true, 1, "anti_perfectionism_direct_termination", 1, 0, []⟩ := by
  have hbody : ∀ (s' : OptState) (stp : Nat),
      (decide (2 ≤ (pushRecent s'.recent (action.take 100)).length) &&
        allEqualStr (pushRecent s'.recent (action.take 100))) = false →
      (decide (3 ≤ stp) && is_task_completed_optimized action) = false →
      (optimizedHandleAction s' stp action).1 =
        .terminate true "anti_perfectionism_direct_termination" := by
    intro s' stp hl hc
    unfold optimizedHandleAction
    rw [hl, hc, hdone, hfail, hnext, hwait, hrw]
    rfl
  constructor
  · exact hbody s step hloop hcomp
  · intro env sc info h1 h2 h3 h4
    have hbody0 : (optimizedHandleAction ⟨[], 0, 0⟩ 0 action).1 =
        .terminate true "anti_perfectionism_direct_termination" := by
      refine hbody ⟨[], 0, 0⟩ 0 ?_ ?_
      · rfl
      · rfl
    show optGo env 15 15 0 ⟨⟨[], 0, 0⟩, 1, 0, 0, []⟩ =
      ⟨true, 1, "anti_perfectionism_direct_termination", 1, 0, []⟩
    rw [show (15 : Nat) = 14 + 1 from rfl, optGo.eq_2]
    rcases hha : optimizedHandleAction ⟨[], 0, 0⟩ 0 action with ⟨outc, hs⟩
    have houtc : outc = .terminate true "anti_perfectionism_direct_termination" := by
      have h0 := hbody0
      rw [hha] at h0
      exact h0
    subst houtc
    simp [h1, h2, h3, h4, hha]

/-- Witness for `anti_perfectionism_terminates`: the action "select all"
at a fresh state, and as the scripted agent's first proposal. -/
theorem anti_perfectionism_witness :
    (optimizedHandleAction ⟨[], 0, 0⟩ 0 "select all").1 =
      .terminate true "anti_perfectionism_direct_termination" ∧
    run_optimized_agent_loop envSelectAll =
      ⟨true, 1, "anti_perfectionism_direct_termination", 1, 0, []⟩ := by
  have h := anti_perfectionism_terminates ⟨[], 0, 0⟩ 0 "select all"
    (by decide) (by decide) (by decide) (by decide) (by decide) (by decide)
    (by decide)
  exact ⟨h.1, h.2 envSelectAll "s" "" rfl (by decide) rfl (by decide)⟩

/-- Neither delay decay nor verification state updates move the pinned
credential. -/
theorem verifyStepState_platformKey (st : MgrState) (v : VerifyEnv) :
    (verifyStepState st v).platformKey = st.platformKey := by
  obtain ⟨vs, vp⟩ := v
  rcases vs with b | m
  · rcases vp with p | m2 <;>
      (dsimp [verifyStepState, decayMgr]; split <;> rfl)
  · rfl

/-- C5: Rate-limited decision call, rotate-and-retry-once.  With a
2-credential pool and the first key pinned, a rate-limited first decision
call makes the step executor rotate the platform to the other credential
(reinitializing the agent) and retry exactly once: if the retry also
fails, the step is reported failed with `rate_limit_retry_failed` and one
recorded rate-limit hit; if the retry succeeds, the step completes
normally (success from verification, the retried action executed) with
`rate_limits = 1`, and a whole session with exactly this one rate limit
publishes successfully with `rate_limit_hits = 1`. -/
theorem rate_limit_rotate_retry_once
    (st : MgrState) (ty instr : String) (env : StepEnv) (k1 k2 : String)
    (b : B64Input) (m : String)
    (hkeys : st.apiKeys = [k1, k2]) (hne : (k2 == k1) = false)
    (hcur : st.platformKey = k1)
    (hsc : env.screenshot = .ok b) (hb : b64Truthy b = true)
    (hp1 : env.predict1 = .exn m) (hrl : isRateLimitMsg m = true) :
    (∀ m2, env.predictRetry = .exn m2 →
      (execute_final_single_step st ty instr env).1 =
        rateLimitRetryFailedResult ty m2 k2 ∧
      (execute_final_single_step st ty instr env).2.1 = ⟨0, 1, 0, 0⟩ ∧
      (execute_final_single_step st ty instr env).2.2.platformKey = k2) ∧
    (∀ info a rest, env.predictRetry = .ok (info, a :: rest) →
      (a == "") = false → strIn "done" (lowerS a) = false →
      env.execRes = .ok () →
      verifyStepBool env.verifyEnv = true →
      (execute_final_single_step st ty instr env).1.success = true ∧
      (execute_final_single_step st ty instr env).1.actionTaken = a.take 200 ∧
      (execute_final_single_step st ty instr env).2.1.rateLimits = 1 ∧
      (execute_final_single_step st ty instr env).2.1.apiCalls = 1 ∧
      (execute_final_single_step st ty instr env).2.2.platformKey = k2) ∧
    ((publish_content_final_step_by_step stTwoKeys "twitter" "hello world" []
        envOneRateLimit).success = true ∧
     (publish_content_final_step_by_step stTwoKeys "twitter" "hello world" []
        envOneRateLimit).rateLimitHits = 1) := by
  have hswitch :
      (final_handle_rate_limit_with_api_switch (decayMgr st) 1 env.keyPick
        env.reinitOk).platformKey = k2 := by
    simp [final_handle_rate_limit_with_api_switch, decayMgr, hkeys, hcur, hne,
      Nat.mod_one]
  refine ⟨?_, ?_, by decide, by decide⟩
  · intro m2 hretry
    simp only [execute_final_single_step, hsc, hb, hp1, hrl, hretry,
      Bool.not_true, Bool.false_eq_true, if_false, hkeys]
    refine ⟨?_, ?_, ?_⟩ <;>
      simp [final_handle_rate_limit_with_api_switch, decayMgr, hkeys, hcur,
        hne, Nat.mod_one]
  · intro info a rest hretry ha hdone hexec hverify
    simp only [execute_final_single_step, finalActs, finalContinueWithAction,
      hsc, hb, hp1, hrl, hretry, ha, hdone, hexec, hverify, hkeys,
      Bool.false_and, Bool.false_eq_true, if_false]
    refine ⟨?_, ?_, ?_, ?_, ?_⟩ <;>
      simp [verifyStepState_platformKey, decayMgr,
        final_handle_rate_limit_with_api_switch, hkeys, hcur, hne, Nat.mod_one]

/-- Witness for `rate_limit_rotate_retry_once`: both the failed-retry and
successful-retry scenarios at concrete inputs. -/
theorem rate_limit_rotate_retry_witness :
    (execute_final_single_step stTwoKeys "navigate_to_compose" "go" rlStepFail).1 =
      rateLimitRetryFailedResult "navigate_to_compose" "rate limit again" "key_two" ∧
    (execute_final_single_step stTwoKeys "navigate_to_compose" "go" rlStep).1.success = true ∧
    (execute_final_single_step stTwoKeys "navigate_to_compose" "go" rlStep).2.1.rateLimits = 1 ∧
    (execute_final_single_step stTwoKeys "navigate_to_compose" "go" rlStep).2.2.platformKey = "key_two" ∧
    (publish_content_final_step_by_step stTwoKeys "twitter" "hello world" []
      envOneRateLimit).rateLimitHits = 1 := by
  have Hfail := rate_limit_rotate_retry_once stTwoKeys "navigate_to_compose" "go"
    rlStepFail "key_one" "key_two" goodPng "rate limit 429"
    rfl (by decide) rfl rfl (by decide) rfl (by decide)
  have Hok := rate_limit_rotate_retry_once stTwoKeys "navigate_to_compose" "go"
    rlStep "key_one" "key_two" goodPng "rate limit 429"
    rfl (by decide) rfl rfl (by decide) rfl (by decide)
  have h2 := Hok.2.1 "ok" "click the box" [] rfl (by decide) (by decide) rfl (by decide)
  exact ⟨(Hfail.1 "rate limit again" rfl).1, h2.1, h2.2.2.1, h2.2.2.2.2,
    Hok.2.2.2⟩

/-- C7: Step-executor totality.  Every failure interface of
`_execute_final_single_step` — a raised or falsy screenshot capture, a
failed (non-rate-limited) decision call, an empty action list, and a
raised remote execution — is absorbed and returned as a failed
`StepResult` (with the remote-execution error recorded in
`error_message`), never propagated as an exception: the executor's outer
`except` makes its value total at the interface. -/
theorem step_executor_never_raises (st : MgrState) (ty instr : String)
    (env : StepEnv) :
    (∀ m, env.screenshot = .exn m →
      execute_final_single_step st ty instr env =
        (exceptionStepResult ty m st.platformKey, ⟨0, 0, 0, 0⟩, st)) ∧
    (env.screenshot = .ok .empty →
      (execute_final_single_step st ty instr env).1 = screenshotFailedResult ty) ∧
    (∀ b m, env.screenshot = .ok b → b64Truthy b = true →
      env.predict1 = .exn m → isRateLimitMsg m = false →
      (execute_final_single_step st ty instr env).1 =
        predictionFailedResult ty m st.platformKey) ∧
    (∀ b info, env.screenshot = .ok b → b64Truthy b = true →
      env.predict1 = .ok (info, []) →
      (execute_final_single_step st ty instr env).1 =
        noActionResult ty info st.platformKey) ∧
    (∀ b info a rest m, env.screenshot = .ok b → b64Truthy b = true →
      env.predict1 = .ok (info, a :: rest) → (a == "") = false →
      strIn "done" (lowerS a) = false → env.execRes = .exn m →
      (execute_final_single_step st ty instr env).1 =
        execFailedResult ty a m st.platformKey ∧
      (execute_final_single_step st ty instr env).1.success = false ∧
      (execute_final_single_step st ty instr env).1.errorMessage =
        some ("Action execution failed: " ++ m)) := by
  refine ⟨?_, ?_, ?_, ?_, ?_⟩
  · intro m hm
    simp [execute_final_single_step, hm]
  · intro hm
    simp [execute_final_single_step, hm, b64Truthy]
  · intro b m hm hb hp hrl
    simp [execute_final_single_step, hm, hb, hp, hrl, decayMgr]
  · intro b info hm hb hp
    simp [execute_final_single_step, finalActs, hm, hb, hp, decayMgr]
  · intro b info a rest m hm hb hp ha hdone hexec
    simp [execute_final_single_step, finalActs, finalContinueWithAction,
      hm, hb, hp, ha, hdone, hexec, decayMgr, execFailedResult]

/-- Witness for `step_executor_never_raises`: each failure interface at a
concrete environment. -/
theorem step_executor_witness :
    (execute_final_single_step stTwoKeys "navigate_to_compose" "go"
        envScreenshotRaise).1 =
      exceptionStepResult "navigate_to_compose" "boom" "key_one" ∧
    (execute_final_single_step stTwoKeys "navigate_to_compose" "go"
        envScreenshotEmpty).1 = screenshotFailedResult "navigate_to_compose" ∧
    (execute_final_single_step stTwoKeys "navigate_to_compose" "go"
        envPredictBroken).1 =
      predictionFailedResult "navigate_to_compose" "model exploded" "key_one" ∧
    (execute_final_single_step stTwoKeys "navigate_to_compose" "go"
        envNoAction).1 =
      noActionResult "navigate_to_compose" "thinking" "key_one" ∧
    (execute_final_single_step stTwoKeys "navigate_to_compose" "go"
        envExecRaise).1.errorMessage =
      some ("Action execution failed: " ++ "vm gone") := by
  refine ⟨?_, ?_, ?_, ?_, ?_⟩
  · exact congrArg Prod.fst
      ((step_executor_never_raises stTwoKeys "navigate_to_compose" "go"
        envScreenshotRaise).1 "boom" rfl)
  · exact (step_executor_never_raises stTwoKeys "navigate_to_compose" "go"
      envScreenshotEmpty).2.1 rfl
  · exact (step_executor_never_raises stTwoKeys "navigate_to_compose" "go"
      envPredictBroken).2.2.1 goodPng "model exploded" rfl (by decide) rfl
      (by decide)
  · exact (step_executor_never_raises stTwoKeys "navigate_to_compose" "go"
      envNoAction).2.2.2.1 goodPng "thinking" rfl (by decide) rfl
  · exact ((step_executor_never_raises stTwoKeys "navigate_to_compose" "go"
      envExecRaise).2.2.2.2 goodPng "ok" "click the box" [] "vm gone" rfl
      (by decide) rfl (by decide) (by decide) rfl).2.2

/-- Looking a platform up succeeds after entry construction. -/
theorem lookup_isSome_of_mem_fst (l : List (String × GatherRes)) (p : String)
    (h : p ∈ l.map Prod.fst) :
    ((l.map (fun pr => (pr.1, entryFor pr.2))).lookup p).isSome = true := by
  induction l with
  | nil => simp at h
  | cons hd tl ih =>
    obtain ⟨q, r⟩ := hd
    simp only [List.map_cons, List.mem_cons] at h
    by_cases hpq : (p == q) = true
    · simp [List.lookup, hpq]
    · have hmem : p ∈ tl.map Prod.fst := by
        rcases h with h | h
        · exact absurd (by simp [h] : (p == q) = true) hpq
        · exact h
      simp [List.lookup, hpq, ih hmem]

/-- C8: Publishing-coordinator isolation.  The coordinator collects one
outcome per platform task (`gather` with `return_exceptions=True`): every
requested platform appears in the result map; the entry at position `i`
is a function of platform `i`'s own outcome alone, so one platform's
exception cannot abort or alter a sibling's result; a raised task is
converted into a failed entry carrying the exception text — and both the
single-platform wrapper and the final manager's publish wrapper likewise
convert a raised session into a failed result whose error field is the
exception text. -/
theorem coordinator_isolation (platforms : List String)
    (outcomes : List GatherRes) (hlen : outcomes.length = platforms.length) :
    (∀ p, p ∈ platforms →
      ((execute_official_publishing platforms outcomes).lookup p).isSome = true) ∧
    (∀ i : Nat, (execute_official_publishing platforms outcomes)[i]? =
      ((platforms.zip outcomes)[i]?).map
        (fun pr : String × GatherRes => (pr.1, entryFor pr.2))) ∧
    (∀ m, entryFor (.exc m) = ⟨false, none, some m, none⟩) ∧
    (∀ platform content e,
      publish_single_platform_parallel platform content (.exn e) =
        ⟨platform, false, content, 0, 0, 0, "exception_occurred", some e⟩) ∧
    (∀ (stm : MgrState) (platform content : String) (hashtags : List String)
        (env : SessionEnv) (e : String), env.outerExn = some e →
      (publish_content_final_step_by_step stm platform content hashtags env).success = false ∧
      (publish_content_final_step_by_step stm platform content hashtags env).errorMessage = some e ∧
      (publish_content_final_step_by_step stm platform content hashtags env).completionReason =
        "exception_occurred") := by
  refine ⟨?_, ?_, fun m => rfl, fun platform content e => rfl, ?_⟩
  · intro p hp
    have hfst : (platforms.zip outcomes).map Prod.fst = platforms :=
      List.map_fst_zip platforms outcomes (le_of_eq hlen.symm)
    exact lookup_isSome_of_mem_fst _ p (by rw [hfst]; exact hp)
  · intro i
    simp [execute_official_publishing, List.getElem?_map]
  · intro stm platform content hashtags env e henv
    simp [publish_content_final_step_by_step, henv]

/-- Witness for `coordinator_isolation`: two platforms, one of which
raises. -/
theorem coordinator_isolation_witness :
    ((execute_official_publishing ["linkedin", "twitter"]
        [.exc "boom", .ok okGatherResult]).lookup "linkedin").isSome = true ∧
    entryFor (.exc "boom") = ⟨false, none, some "boom", none⟩ ∧
    (publish_content_final_step_by_step stTwoKeys "twitter" "hello" []
        envOuterBoom).errorMessage = some "session crashed" := by
  have H := coordinator_isolation ["linkedin", "twitter"]
    [.exc "boom", .ok okGatherResult] rfl
  exact ⟨H.1 "linkedin" (by decide), H.2.2.1 "boom",
    (H.2.2.2.2 stTwoKeys "twitter" "hello" [] envOuterBoom "session crashed"
      rfl).2.1⟩

end PostPrism
